import Mathlib

/-!
Shallow embedding of `src/media_integrity_checker.py` and `src/main.py`
(media-integrity-checker).  External library behaviour (PIL, OpenCV,
ffprobe subprocess) is modelled by explicit environments recording what
each library call would return or raise for the file at hand; the
Python control flow (try/except/finally, early returns) is translated
directly.  Python floats are modelled as rationals (the code only
compares them with 0 and embeds them in messages); Python float
formatting is abstracted by `toString`.
-/

/-- Python exceptions distinguished by the except clauses of the source:
`FileNotFoundError`, `PermissionError`, and any other `Exception`
carrying its `str(e)` text. -/
inductive PyErr where
  | fileNotFound
  | permission
  | other (msg : String)
deriving DecidableEq, Repr

/-- Python `str.lower()` (ASCII-relevant part, as used on extensions). -/
def lowerStr (s : String) : String := String.mk (s.toList.map Char.toLower)

/-- Python slicing `s[:n]` (truncation by character count). -/
def strTake (s : String) (n : Nat) : String := String.mk (s.toList.take n)

/-- Split a character list at every occurrence of `c` (Python `str.split`
on a one-character separator, used here for the POSIX path separator). -/
def splitOnCharAux (c : Char) : List Char → List Char → List (List Char)
  | [], acc => [acc.reverse]
  | x :: xs, acc =>
    if x = c then acc.reverse :: splitOnCharAux c xs []
    else splitOnCharAux c xs (x :: acc)

def splitOnChar (c : Char) (l : List Char) : List (List Char) := splitOnCharAux c l []

/-- Basename of a POSIX path, as `os.path.splitext` operates on the part
after the last separator. -/
def pyBasename (path : String) : List Char := (splitOnChar '/' path.toList).getLastD []

/-- Extension part of `os.path.splitext` on a basename: the substring from
the last dot onward, unless every character before that dot is itself a
dot (leading dots of a hidden file do not start an extension). -/
def pyExtChars (base : List Char) : List Char :=
  match ((List.range base.length).filter (fun i => base.get? i == some '.')).getLast? with
  | none => []
  | some i => if (base.take i).any (fun c => c != '.') then base.drop i else []

/-- `os.path.splitext(path)[1]` for a POSIX path. -/
def pyExtStr (path : String) : String := String.mk (pyExtChars (pyBasename path))

/-- Python `str(x)` for `img.format`, which is `None` or a string. -/
def pyFormatStr : Option String → String
  | none => "None"
  | some s => s

/-- What PIL reports for an image that `Image.open` managed to open:
dimensions, detected format (`img.format`, possibly `None`), and whether
`img.load()` raises (forcing the full pixel decode). -/
structure ImgInfo where
  width : Int
  height : Int
  format : Option String
  loadResult : Option PyErr
deriving DecidableEq, Repr

/-- Behaviour of `PIL.Image.open` on the file: either raises or yields
the decoded image's properties. -/
structure ImgEnv where
  openResult : Except PyErr ImgInfo

/-- The three except clauses of `check_image_integrity`. -/
def imgExcHandler : PyErr → Bool × String
  | PyErr.fileNotFound => (false, "文件不存在")
  | PyErr.permission => (false, "权限不足，无法读取文件")
  | PyErr.other m => (false, "损坏或不支持的图片格式: " ++ strTake m 100)

/-- `MediaIntegrityChecker.check_image_integrity`: open the image, reject
non-positive dimensions, force a full decode, then cross-check the
lowercased extension against the detected format (`.jpg` vs JPEG,
`.png` vs PNG). -/
def check_image_integrity (file_path : String) (env : ImgEnv) : Bool × String :=
  match env.openResult with
  | Except.error e => imgExcHandler e
  | Except.ok img =>
    if img.width ≤ 0 ∨ img.height ≤ 0 then
      (false, "无效图片尺寸: " ++ toString img.width ++ "x" ++ toString img.height)
    else
      match img.loadResult with
      | some e => imgExcHandler e
      | none =>
        if lowerStr (pyExtStr file_path) = ".jpg" ∧ img.format ≠ some "JPEG" then
          (false, "格式不匹配: 文件后缀为" ++ lowerStr (pyExtStr file_path) ++
            "，实际格式为" ++ pyFormatStr img.format)
        else if lowerStr (pyExtStr file_path) = ".png" ∧ img.format ≠ some "PNG" then
          (false, "格式不匹配: 文件后缀为" ++ lowerStr (pyExtStr file_path) ++
            "，实际格式为" ++ pyFormatStr img.format)
        else
          (true, "图片正常")

/-- Outcome of the ffprobe subprocess step of `check_video_integrity`:
the tool is absent (`FileNotFoundError`, silently skipped), or it ran
and `float(result.stdout.strip())` parsed to a duration, or it failed
for any other reason (non-zero exit via `check=True`, unparsable
output, ...) with `str(e)` text. -/
inductive ProbeResult where
  | absent
  | ran (duration : ℚ)
  | failed (msg : String)

/-- Result of `cap.read()` after a seek: the returned flag and whether
the frame object is non-`None`. -/
structure ReadOut where
  ret : Bool
  frameSome : Bool
deriving DecidableEq, Repr

/-- Properties OpenCV reports for an opened capture: `isOpened`, the
integer-truncated frame count / width / height, the fps, and the
behaviour of seek-and-read at each frame index (which may also raise). -/
structure CapInfo where
  opened : Bool
  frame_count : Int
  fps : ℚ
  width : Int
  height : Int
  read : Int → Except PyErr ReadOut

/-- Environment of one `check_video_integrity` call: the ffprobe outcome
and the behaviour of `cv2.VideoCapture` (raising leaves `cap = None`). -/
structure VideoEnv where
  probe : ProbeResult
  ctor : Except PyErr CapInfo

/-- The three except clauses of the OpenCV section of
`check_video_integrity`. -/
def vidExcHandler : PyErr → Bool × String
  | PyErr.fileNotFound => (false, "文件不存在")
  | PyErr.permission => (false, "权限不足，无法读取文件")
  | PyErr.other m => (false, "损坏或不支持的视频格式: " ++ strTake m 100)

/-- `test_frames = [0, min(100, frame_count//2), max(0, frame_count-5)]`
(Python `//` is floor division, hence `Int.fdiv`). -/
def test_frames (frame_count : Int) : List Int :=
  [0, min 100 (Int.fdiv frame_count 2), max 0 (frame_count - 5)]

/-- The `for frame_idx in test_frames` loop: seek-and-read each index in
order; a raised exception propagates, otherwise the first index whose
read yields `ret` false or a `None` frame is returned. -/
def readLoop (read : Int → Except PyErr ReadOut) : List Int → Except PyErr (Option Int)
  | [] => Except.ok none
  | i :: rest =>
    match read i with
    | Except.error e => Except.error e
    | Except.ok r =>
      if r.ret = false ∨ r.frameSome = false then Except.ok (some i)
      else readLoop read rest

/-- Body of the `try` block around the OpenCV checks, after the capture
was constructed: early `return`s are `Except.ok`, raised exceptions are
`Except.error`. -/
def cv2Body (c : CapInfo) (duration : ℚ) : Except PyErr (Bool × String) :=
  if c.opened = false then Except.ok (false, "无法打开视频文件，可能已损坏")
  else if c.frame_count ≤ 0 then Except.ok (false, "无效帧数: " ++ toString c.frame_count)
  else if c.fps ≤ 0 then Except.ok (false, "无效帧率: " ++ toString c.fps)
  else if c.width ≤ 0 ∨ c.height ≤ 0 then
    Except.ok (false, "无效视频尺寸: " ++ toString c.width ++ "x" ++ toString c.height)
  else
    match readLoop c.read (test_frames c.frame_count) with
    | Except.error e => Except.error e
    | Except.ok (some i) => Except.ok (false, "帧" ++ toString i ++ "读取失败，视频可能损坏")
    | Except.ok none =>
      Except.ok (true, "视频正常 (时长: " ++ toString duration ++ "秒, 分辨率: " ++
        toString c.width ++ "x" ++ toString c.height ++ ", 帧数: " ++
        toString c.frame_count ++ ")")

/-- Outcome of a `check_video_integrity` call, with the resource facts
needed to audit the `finally` clause: whether a capture was acquired
(`cap` assigned a non-`None` handle) and whether `cap.release()` ran. -/
structure VideoRun where
  result : Bool × String
  acquired : Bool
  released : Bool
deriving DecidableEq, Repr

/-- The `try`/`except`/`finally` around the OpenCV section: if the
constructor raises, `cap` stays `None` and the `finally` does not call
`release`; once `cap` is assigned, `finally` releases it on the normal,
early-return and exceptional paths alike, and the except clauses turn
any raised exception into a failing result. -/
def videoDecodePart (ctor : Except PyErr CapInfo) (duration : ℚ) : VideoRun :=
  match ctor with
  | Except.error e => ⟨vidExcHandler e, false, false⟩
  | Except.ok c =>
    match cv2Body c duration with
    | Except.ok r => ⟨r, true, true⟩
    | Except.error e => ⟨vidExcHandler e, true, true⟩

/-- `MediaIntegrityChecker.check_video_integrity`: ffprobe step first
(`duration` initialised to 0 and kept at 0 when the tool is absent),
then the OpenCV frame checks. -/
def check_video_integrity (env : VideoEnv) : VideoRun :=
  match env.probe with
  | ProbeResult.absent => videoDecodePart env.ctor 0
  | ProbeResult.ran d =>
    if d ≤ 0 then ⟨(false, "无效视频时长: " ++ toString d ++ "秒"), false, false⟩
    else videoDecodePart env.ctor d
  | ProbeResult.failed m => ⟨(false, "ffprobe检测失败: " ++ strTake m 80), false, false⟩

/-- `MediaIntegrityChecker.SUPPORTED_IMAGES`. -/
def SUPPORTED_IMAGES : List String := [".jpg", ".jpeg", ".png", ".gif", ".bmp"]

/-- `MediaIntegrityChecker.SUPPORTED_VIDEOS`. -/
def SUPPORTED_VIDEOS : List String := [".mp4", ".avi", ".mkv", ".mov", ".flv"]

/-- One scanned file as `run_checks` sees it: its path relative to the
target directory (`os.path.relpath` is abstracted to the stored path)
together with the behaviour the image and video libraries would exhibit
on it. -/
structure FileEnv where
  path : String
  img : ImgEnv
  vid : VideoEnv

/-- One entry of `self.results`. -/
structure CheckRes where
  path : String
  type : String
  status : String
  message : String
deriving DecidableEq, Repr

/-- Body of the `for` loop of `run_checks`: dispatch on the lowercased
extension — image extensions go to `check_image_integrity`, everything
else to `check_video_integrity` — and record path, type, status glyph
and message. -/
def resultRow (f : FileEnv) : CheckRes :=
  if lowerStr (pyExtStr f.path) ∈ SUPPORTED_IMAGES then
    let r := check_image_integrity f.path f.img
    ⟨f.path, "IMAGE", if r.1 then "✅ 正常" else "❌ 损坏", r.2⟩
  else
    let r := check_video_integrity f.vid
    ⟨f.path, "VIDEO", if r.result.1 then "✅ 正常" else "❌ 损坏", r.result.2⟩

/-- The `is_ok` flag of one loop iteration of `run_checks`. -/
def fileOk (f : FileEnv) : Bool :=
  if lowerStr (pyExtStr f.path) ∈ SUPPORTED_IMAGES then
    (check_image_integrity f.path f.img).1
  else (check_video_integrity f.vid).result.1

/-- The counters and result list a run leaves on the checker object. -/
structure RunState where
  results : List CheckRes
  total_count : Nat
  ok_count : Nat
  error_count : Nat
deriving DecidableEq, Repr

/-- `MediaIntegrityChecker.run_checks` on an already scanned file list:
`total_count = len(media_files)`, one result appended per file in scan
order, `ok_count` incremented per passing file, and at the end
`error_count = total_count - ok_count` (Python int subtraction; here
`ok_count ≤ total_count`, so Nat subtraction agrees). -/
def run_checks (files : List FileEnv) : RunState :=
  ⟨files.map resultRow, files.length, (files.filter fileOk).length,
    files.length - (files.filter fileOk).length⟩

/-- Python `f"{s:<50}"`: pad on the right with spaces to the field
width, counted in characters. -/
def padTo (n : Nat) (s : String) : String :=
  s ++ String.mk (List.replicate (n - s.length) ' ')

/-- Python `s[-n:]`: the last `n` characters (the whole string when it
is shorter). -/
def takeRightStr (s : String) (n : Nat) : String :=
  String.mk (s.toList.drop (s.toList.length - n))

/-- The long-path handling of `generate_report`:
`res["path"] if len(res["path"]) <= 50 else "..." + res["path"][-47:]`. -/
def display_path (p : String) : String :=
  if p.length ≤ 50 then p else "..." ++ takeRightStr p 47

/-- One table row of the report. -/
def reportRow (r : CheckRes) : String :=
  padTo 50 (display_path r.path) ++ " " ++ padTo 8 r.type ++ " " ++
    padTo 10 r.status ++ " " ++ r.message

/-- `"=" * 80`. -/
def eqLine : String := String.mk (List.replicate 80 '=')

/-- `"-" * 80`. -/
def dashLine : String := String.mk (List.replicate 80 '-')

/-- The table header row of the report. -/
def headerRow : String :=
  padTo 50 "文件路径" ++ " " ++ padTo 8 "类型" ++ " " ++ padTo 10 "状态" ++ " " ++ "说明"

/-- `MediaIntegrityChecker.generate_report`: the fixed header block
(note the entry `"\n详细结果:"`, whose first character is a newline)
followed by one row per result. -/
def generate_report (directory : String) (recursive : Bool) (st : RunState) : List String :=
  [eqLine, "媒体文件完整性检测报告", eqLine,
   "检测目录: " ++ directory,
   "扫描模式: " ++ (if recursive then "递归扫描" else "当前目录"),
   "检测总数: " ++ toString st.total_count ++ " 个",
   "正常文件: " ++ toString st.ok_count ++ " 个",
   "损坏文件: " ++ toString st.error_count ++ " 个",
   "\n详细结果:",
   dashLine, headerRow, dashLine] ++ st.results.map reportRow

/-- `"\n".join(report)`, as `save_report` writes it and `run` prints it. -/
def joinLines : List String → String
  | [] => ""
  | [s] => s
  | s :: rest => s ++ "\n" ++ joinLines (rest)

/-- Number of newline-separated lines of a text. -/
def countLines (s : String) : Nat := (splitOnChar '\n' s.toList).length

/-- `MediaIntegrityChecker.__init__` after computing the absolute path:
raises `ValueError` unless the target is a valid directory. -/
def checker_init (dirIsValid : Bool) : Except String Unit :=
  if dirIsValid then Except.ok ()
  else Except.error "目录不存在或不是有效目录"

/-- Environment of one process invocation: whether `os.path.isdir`
accepts the target, and the scanned files with their library behaviour. -/
structure SysEnv where
  dirIsValid : Bool
  files : List FileEnv

/-- `main` of `src/main.py`: constructing the checker inside
`try/except ValueError` — on a ValueError it prints and calls `exit(1)`
before any check ran; otherwise `checker.run()` completes and the
process exits 0.  Returns the exit status and the per-file results
produced. -/
def main_run (env : SysEnv) : Nat × List CheckRes :=
  match checker_init env.dirIsValid with
  | Except.error _ => (1, [])
  | Except.ok _ => (0, (run_checks env.files).results)

/-- A file whose image decode raises: fails its check but the run
continues. -/
def badImgFile : FileEnv :=
  ⟨"x.png", ⟨Except.error PyErr.fileNotFound⟩,
    ⟨ProbeResult.absent, Except.error (PyErr.other "no")⟩⟩

/-- A healthy capture: opened, 20 frames at 30 fps, 640x360, every
seek-and-read succeeds. -/
def capOkSmall : CapInfo :=
  ⟨true, 20, 30, 640, 360, fun _ => Except.ok ⟨true, true⟩⟩

/-- A capture whose `cap.read()` raises on every index. -/
def capRaise : CapInfo :=
  ⟨true, 20, 30, 640, 360, fun _ => Except.error (PyErr.other "decode error")⟩

/-- A capture that reads fine everywhere except at frame 15, where
`cap.read()` returns `ret = False`. -/
def capFailAt15 : CapInfo :=
  ⟨true, 20, 30, 640, 360, fun i => Except.ok ⟨decide (i ≠ 15), true⟩⟩

/-- If every index in the list reads successfully, the sampling loop
finishes without selecting a failing index. -/
theorem readLoop_all_ok (read : Int → Except PyErr ReadOut) :
    ∀ l : List Int,
      (∀ i ∈ l, ∃ r, read i = Except.ok r ∧ r.ret = true ∧ r.frameSome = true) →
      readLoop read l = Except.ok none
  | [], _ => rfl
  | i :: rest, h => by
    obtain ⟨r, hr, h1, h2⟩ := h i (List.mem_cons_self i rest)
    simp only [readLoop, hr, h1, h2]
    simpa using readLoop_all_ok read rest fun j hj => h j (List.mem_cons_of_mem i hj)

/-- If every index before `i` reads successfully and the read at `i`
returns no usable frame, the sampling loop selects `i`. -/
theorem readLoop_first_fail (read : Int → Except PyErr ReadOut) (i : Int) (r : ReadOut)
    (post : List Int) (hr : read i = Except.ok r)
    (hfail : r.ret = false ∨ r.frameSome = false) :
    ∀ pre : List Int,
      (∀ j ∈ pre, ∃ s, read j = Except.ok s ∧ s.ret = true ∧ s.frameSome = true) →
      readLoop read (pre ++ i :: post) = Except.ok (some i)
  | [], _ => by
    simp only [List.nil_append, readLoop, hr]
    rw [if_pos hfail]
  | j :: pre, h => by
    obtain ⟨s, hs, h1, h2⟩ := h j (List.mem_cons_self j pre)
    simp only [List.cons_append, readLoop, hs, h1, h2]
    simpa using readLoop_first_fail read i r post hr hfail pre
      fun k hk => h k (List.mem_cons_of_mem j hk)

/-- In `videoDecodePart` the `finally` clause releases the capture
exactly when one was acquired. -/
theorem videoDecodePart_release (ctor : Except PyErr CapInfo) (d : ℚ) :
    (videoDecodePart ctor d).released = (videoDecodePart ctor d).acquired := by
  cases ctor with
  | error e => rfl
  | ok c => cases hcb : cv2Body c d <;> simp [videoDecodePart, hcb]

/-- Claim C1, counterexample: `photo.jpeg` has lowercased extension
`.jpeg` and decodes as a PNG with positive dimensions, yet
`check_image_integrity` returns ok=true — the source only cross-checks
the exact extension `.jpg`, not `.jpeg`, so the claim as stated fails. -/
theorem C1_counterexample :
    lowerStr (pyExtStr "photo.jpeg") = ".jpeg" ∧
    (⟨100, 100, some "PNG", none⟩ : ImgInfo).format ≠ some "JPEG" ∧
    check_image_integrity "photo.jpeg" ⟨Except.ok ⟨100, 100, some "PNG", none⟩⟩ =
      (true, "图片正常") := by
  refine ⟨by decide, by decide, by decide⟩

/-- Claim C1 (amended): for an image that decodes with positive
dimensions and a successful full load, the result is a format-mismatch
failure naming extension and detected format exactly when the lowercased
extension is `.jpg` (not `.jpeg`) and the detected format is not JPEG,
or the extension is `.png` and the detected format is not PNG; in every
other case the cross-check passes with ok=true. -/
theorem C1_format_crosscheck (p : String) (img : ImgInfo)
    (hw : 0 < img.width) (hh : 0 < img.height) (hload : img.loadResult = none) :
    check_image_integrity p ⟨Except.ok img⟩ =
      if lowerStr (pyExtStr p) = ".jpg" ∧ img.format ≠ some "JPEG" then
        (false, "格式不匹配: 文件后缀为" ++ lowerStr (pyExtStr p) ++
          "，实际格式为" ++ pyFormatStr img.format)
      else if lowerStr (pyExtStr p) = ".png" ∧ img.format ≠ some "PNG" then
        (false, "格式不匹配: 文件后缀为" ++ lowerStr (pyExtStr p) ++
          "，实际格式为" ++ pyFormatStr img.format)
      else (true, "图片正常") := by
  have hdim : ¬(img.width ≤ 0 ∨ img.height ≤ 0) := by omega
  simp only [check_image_integrity, if_neg hdim, hload]

/-- Claim C1 witness: a file named `a.JPG` (lowercased extension `.jpg`)
whose detected format is PNG is reported as a format mismatch. -/
theorem C1_witness :
    (0 : Int) < 100 ∧
    check_image_integrity "a.JPG" ⟨Except.ok ⟨100, 100, some "PNG", none⟩⟩ =
      if lowerStr (pyExtStr "a.JPG") = ".jpg" ∧
          (⟨100, 100, some "PNG", none⟩ : ImgInfo).format ≠ some "JPEG" then
        (false, "格式不匹配: 文件后缀为" ++ lowerStr (pyExtStr "a.JPG") ++
          "，实际格式为" ++ pyFormatStr (⟨100, 100, some "PNG", none⟩ : ImgInfo).format)
      else if lowerStr (pyExtStr "a.JPG") = ".png" ∧
          (⟨100, 100, some "PNG", none⟩ : ImgInfo).format ≠ some "PNG" then
        (false, "格式不匹配: 文件后缀为" ++ lowerStr (pyExtStr "a.JPG") ++
          "，实际格式为" ++ pyFormatStr (⟨100, 100, some "PNG", none⟩ : ImgInfo).format)
      else (true, "图片正常") :=
  ⟨by decide, C1_format_crosscheck "a.JPG" ⟨100, 100, some "PNG", none⟩
    (by decide) (by decide) rfl⟩

/-- Claim C10: for an image whose lowercased extension is `.gif` or
`.bmp`, no extension-versus-format cross-check is performed: a full
decode with positive dimensions yields ok=true whatever the detected
format is. -/
theorem C10_no_crosscheck (p : String) (img : ImgInfo)
    (hw : 0 < img.width) (hh : 0 < img.height) (hload : img.loadResult = none)
    (hext : lowerStr (pyExtStr p) = ".gif" ∨ lowerStr (pyExtStr p) = ".bmp") :
    check_image_integrity p ⟨Except.ok img⟩ = (true, "图片正常") := by
  have hdim : ¬(img.width ≤ 0 ∨ img.height ≤ 0) := by omega
  rcases hext with h | h <;>
    simp only [check_image_integrity, if_neg hdim, hload, h] <;>
    simp

/-- Claim C10 witness: `pic.BMP` decoding as a JPEG with positive
dimensions passes. -/
theorem C10_witness :
    lowerStr (pyExtStr "pic.BMP") = ".bmp" ∧
    check_image_integrity "pic.BMP" ⟨Except.ok ⟨10, 10, some "JPEG", none⟩⟩ =
      (true, "图片正常") :=
  ⟨by decide, C10_no_crosscheck "pic.BMP" ⟨10, 10, some "JPEG", none⟩
    (by decide) (by decide) rfl (Or.inr (by decide))⟩

/-- Claim C2: ffprobe policy of `check_video_integrity` — an absent
probe tool is silently skipped (duration stays 0) and the check proceeds
to the OpenCV frame-decode part; a reported duration ≤ 0 fails
immediately with the invalid-duration message and never acquires the
decode capture; any other probe failure fails with the error text
truncated to 80 characters. -/
theorem C2_probe_policy (env : VideoEnv) :
    (env.probe = ProbeResult.absent →
      check_video_integrity env = videoDecodePart env.ctor 0) ∧
    (∀ d : ℚ, env.probe = ProbeResult.ran d → d ≤ 0 →
      check_video_integrity env =
        ⟨(false, "无效视频时长: " ++ toString d ++ "秒"), false, false⟩) ∧
    (∀ m : String, env.probe = ProbeResult.failed m →
      check_video_integrity env =
        ⟨(false, "ffprobe检测失败: " ++ strTake m 80), false, false⟩) := by
  refine ⟨fun h => by simp [check_video_integrity, h],
    fun d h hd => by simp [check_video_integrity, h, if_pos hd],
    fun m h => by simp [check_video_integrity, h]⟩

/-- Claim C2 witness: the three probe outcomes on a concrete healthy
capture. -/
theorem C2_witness :
    check_video_integrity ⟨ProbeResult.absent, Except.ok capOkSmall⟩ =
      videoDecodePart (Except.ok capOkSmall) 0 ∧
    check_video_integrity ⟨ProbeResult.ran (-1), Except.ok capOkSmall⟩ =
      ⟨(false, "无效视频时长: " ++ toString (-1 : ℚ) ++ "秒"), false, false⟩ ∧
    check_video_integrity ⟨ProbeResult.failed "boom", Except.ok capOkSmall⟩ =
      ⟨(false, "ffprobe检测失败: " ++ strTake "boom" 80), false, false⟩ :=
  ⟨(C2_probe_policy ⟨ProbeResult.absent, Except.ok capOkSmall⟩).1 rfl,
   (C2_probe_policy ⟨ProbeResult.ran (-1), Except.ok capOkSmall⟩).2.1 (-1) rfl (by decide),
   (C2_probe_policy ⟨ProbeResult.failed "boom", Except.ok capOkSmall⟩).2.2 "boom" rfl⟩

/-- Claim C4: once the decode capture has been acquired (`cap` assigned),
`check_video_integrity` releases it on every exit path — success, every
early failure return, and the exceptional path. -/
theorem C4_release_on_acquire (env : VideoEnv)
    (h : (check_video_integrity env).acquired = true) :
    (check_video_integrity env).released = true := by
  rcases env with ⟨probe, ctor⟩
  cases probe with
  | absent =>
    simp only [check_video_integrity] at h ⊢
    rw [videoDecodePart_release]; exact h
  | ran d =>
    by_cases hd : d ≤ 0
    · simp [check_video_integrity, if_pos hd] at h
    · simp only [check_video_integrity, if_neg hd] at h ⊢
      rw [videoDecodePart_release]; exact h
  | failed m => simp [check_video_integrity] at h

/-- Claim C4 witness: a capture whose read raises is still released. -/
theorem C4_witness :
    (check_video_integrity ⟨ProbeResult.absent, Except.ok capRaise⟩).acquired = true ∧
    (check_video_integrity ⟨ProbeResult.absent, Except.ok capRaise⟩).released = true :=
  ⟨rfl, C4_release_on_acquire ⟨ProbeResult.absent, Except.ok capRaise⟩ rfl⟩

/-- Claim C5: when the check reaches the frame-sampling step (probe
absent or positive duration, capture opened, positive frame count, fps
and dimensions), exactly the indices 0, min(100, frame_count//2) and
max(0, frame_count-5) are sampled in that order; if every sampled read
succeeds the check passes, and if the first failing sampled index is `i`
the check fails with the message naming frame `i`. -/
theorem C5_frame_sampling (env : VideoEnv) (c : CapInfo) (d : ℚ)
    (hctor : env.ctor = Except.ok c) (hopen : c.opened = true)
    (hfc : 0 < c.frame_count) (hfps : 0 < c.fps)
    (hw : 0 < c.width) (hh : 0 < c.height)
    (hp : (env.probe = ProbeResult.absent ∧ d = 0) ∨
      (env.probe = ProbeResult.ran d ∧ 0 < d)) :
    test_frames c.frame_count =
      [0, min 100 (Int.fdiv c.frame_count 2), max 0 (c.frame_count - 5)] ∧
    ((∀ i ∈ test_frames c.frame_count,
        ∃ r, c.read i = Except.ok r ∧ r.ret = true ∧ r.frameSome = true) →
      (check_video_integrity env).result =
        (true, "视频正常 (时长: " ++ toString d ++ "秒, 分辨率: " ++
          toString c.width ++ "x" ++ toString c.height ++ ", 帧数: " ++
          toString c.frame_count ++ ")")) ∧
    (∀ (pre : List Int) (i : Int) (post : List Int) (r : ReadOut),
      test_frames c.frame_count = pre ++ i :: post →
      (∀ j ∈ pre, ∃ s, c.read j = Except.ok s ∧ s.ret = true ∧ s.frameSome = true) →
      c.read i = Except.ok r → (r.ret = false ∨ r.frameSome = false) →
      (check_video_integrity env).result =
        (false, "帧" ++ toString i ++ "读取失败，视频可能损坏")) := by
  have hred : check_video_integrity env = videoDecodePart (Except.ok c) d := by
    rcases hp with ⟨hpr, hd⟩ | ⟨hpr, hd⟩
    · rw [hd]; simp [check_video_integrity, hpr, hctor]
    · simp [check_video_integrity, hpr, if_neg (not_le.mpr hd), hctor]
  have h1 : ¬(c.frame_count ≤ 0) := not_le.mpr hfc
  have h2 : ¬(c.fps ≤ 0) := not_le.mpr hfps
  have h3 : ¬(c.width ≤ 0 ∨ c.height ≤ 0) := by omega
  refine ⟨rfl, fun hall => ?_, fun pre i post r heq hpre hri hfail => ?_⟩
  · have hloop := readLoop_all_ok c.read (test_frames c.frame_count) hall
    rw [hred]
    simp [videoDecodePart, cv2Body, hopen, h1, h2, h3, hloop]
  · have hloop := readLoop_first_fail c.read i r post hri hfail pre hpre
    rw [← heq] at hloop
    rw [hred]
    simp [videoDecodePart, cv2Body, hopen, h1, h2, h3, hloop]

/-- Claim C5 witness: a 20-frame video failing only at frame 15 — the
sampled indices are 0, 10, 15, and the check names frame 15. -/
theorem C5_witness :
    test_frames (20 : Int) = [0, 10, 15] ∧
    (check_video_integrity ⟨ProbeResult.ran 7, Except.ok capFailAt15⟩).result =
      (false, "帧" ++ toString (15 : Int) ++ "读取失败，视频可能损坏") :=
  ⟨by decide,
   (C5_frame_sampling ⟨ProbeResult.ran 7, Except.ok capFailAt15⟩ capFailAt15 7
      rfl rfl (by decide) (by decide) (by decide) (by decide)
      (Or.inr ⟨rfl, by decide⟩)).2.2 [0, 10] 15 [] ⟨false, true⟩ (by decide)
      (by intro j hj; fin_cases hj <;> exact ⟨⟨true, true⟩, rfl, rfl, rfl⟩)
      rfl (Or.inl rfl)⟩

/-- Claim C3: after every completed run, for any scanned file list and
any mix of passing and failing checks, `total_count` equals `ok_count`
plus `error_count`. -/
theorem C3_count_invariant (files : List FileEnv) :
    (run_checks files).total_count =
      (run_checks files).ok_count + (run_checks files).error_count := by
  have h : (files.filter fileOk).length ≤ files.length := List.length_filter_le _ _
  simp only [run_checks]
  omega

/-- Claim C9: the per-file checkers are total at the interface — the run
produces exactly one result per scanned file in order (no file aborts
the scan), and every modelled exception class (not found, permission,
any other decode/probe error) is converted into an ok=false result by
the except handlers of both checkers. -/
theorem C9_totality (files : List FileEnv) :
    (run_checks files).results = files.map resultRow ∧
    (run_checks files).results.length = files.length ∧
    (∀ e : PyErr, (imgExcHandler e).1 = false ∧ (vidExcHandler e).1 = false) ∧
    (∀ (p : String) (e : PyErr),
      check_image_integrity p ⟨Except.error e⟩ = imgExcHandler e) ∧
    (∀ (ctor : Except PyErr CapInfo) (e : PyErr) (d : ℚ),
      ctor = Except.error e → (videoDecodePart ctor d).result = vidExcHandler e) := by
  refine ⟨rfl, by simp [run_checks], ?_, fun p e => rfl, fun ctor e d h => by rw [h]; rfl⟩
  intro e
  cases e <;> exact ⟨rfl, rfl⟩

/-- Claim C9 witness: a failing constructor is handled, and a scan of
one bad file yields exactly one result. -/
theorem C9_witness :
    (run_checks [badImgFile]).results = List.map resultRow [badImgFile] ∧
    (videoDecodePart (Except.error PyErr.fileNotFound) 0).result =
      vidExcHandler PyErr.fileNotFound :=
  ⟨(C9_totality [badImgFile]).1,
   (C9_totality [badImgFile]).2.2.2.2 (Except.error PyErr.fileNotFound)
     PyErr.fileNotFound 0 rfl⟩

/-- Claim C6, counterexample: with zero scanned files the rendered
report text (`"\n".join(report)`) has 13 lines, not 12 — the header
entry `"\n详细结果:"` starts with an embedded newline, so it prints as
two lines. -/
theorem C6_counterexample :
    (run_checks []).results.length = 0 ∧
    countLines (joinLines (generate_report "/data" false (run_checks []))) = 13 :=
  ⟨rfl, by decide⟩

/-- Claim C6 (amended): the generated report is a list of 12 fixed
header/separator entries plus exactly one entry per scanned file; the
rendered text gains one extra line because the `详细结果` entry embeds a
leading newline. -/
theorem C6_report_entries (directory : String) (recursive : Bool) (files : List FileEnv) :
    (generate_report directory recursive (run_checks files)).length = 12 + files.length := by
  simp [generate_report, run_checks]
  omega

/-- Claim C7: an invalid target directory makes the run exit with status
1 before any per-file result is produced, while a valid directory —
regardless of how many files fail their checks — completes with exit
status 0 and the per-file results of the run. -/
theorem C7_exit_behavior (env : SysEnv) :
    (env.dirIsValid = false → main_run env = (1, [])) ∧
    (env.dirIsValid = true →
      (main_run env).1 = 0 ∧ (main_run env).2 = (run_checks env.files).results) := by
  constructor
  · intro h; simp [main_run, checker_init, h]
  · intro h; simp [main_run, checker_init, h]

/-- Claim C7 witness: the same failing file under an invalid and a valid
target directory. -/
theorem C7_witness :
    main_run ⟨false, [badImgFile]⟩ = (1, []) ∧
    (main_run ⟨true, [badImgFile]⟩).1 = 0 ∧
    (main_run ⟨true, [badImgFile]⟩).2 = (run_checks [badImgFile]).results :=
  ⟨(C7_exit_behavior ⟨false, [badImgFile]⟩).1 rfl,
   (C7_exit_behavior ⟨true, [badImgFile]⟩).2 rfl⟩

/-- Claim C8: every result row displays the path via `display_path`; the
displayed path is the relative path unchanged when it has at most 50
characters, and otherwise the three-character ellipsis `...` followed by
exactly the last 47 characters of the path. -/
theorem C8_display_path (p : String) :
    (∀ r : CheckRes, reportRow r =
      padTo 50 (display_path r.path) ++ " " ++ padTo 8 r.type ++ " " ++
        padTo 10 r.status ++ " " ++ r.message) ∧
    (p.length ≤ 50 → display_path p = p) ∧
    (50 < p.length →
      ∃ pre : String,
        p = pre ++ takeRightStr p 47 ∧ (takeRightStr p 47).length = 47 ∧
        display_path p = "..." ++ takeRightStr p 47 ∧ ("..." : String).length = 3) := by
  refine ⟨fun r => rfl, fun h => by simp [display_path, h], fun h => ?_⟩
  have hl : 50 < p.toList.length := h
  refine ⟨String.mk (p.toList.take (p.toList.length - 47)), ?_, ?_, ?_, rfl⟩
  · have happ :
        String.mk (p.toList.take (p.toList.length - 47)) ++
          String.mk (p.toList.drop (p.toList.length - 47)) =
        String.mk (p.toList.take (p.toList.length - 47) ++
          p.toList.drop (p.toList.length - 47)) := rfl
    show p = String.mk (p.toList.take (p.toList.length - 47)) ++
      String.mk (p.toList.drop (p.toList.length - 47))
    rw [happ, List.take_append_drop]
    rfl
  · show (p.toList.drop (p.toList.length - 47)).length = 47
    rw [List.length_drop]
    omega
  · unfold display_path
    rw [if_neg (not_le.mpr h)]

/-- Claim C8 witness: a 60-character relative path is displayed as the
ellipsis plus its last 47 characters. -/
theorem C8_witness :
    50 < ("012345678901234567890123456789012345678901234567890123456789" : String).length ∧
    (∃ pre : String,
      ("012345678901234567890123456789012345678901234567890123456789" : String) =
        pre ++ takeRightStr "012345678901234567890123456789012345678901234567890123456789" 47 ∧
      (takeRightStr "012345678901234567890123456789012345678901234567890123456789" 47).length = 47 ∧
      display_path "012345678901234567890123456789012345678901234567890123456789" =
        "..." ++ takeRightStr "012345678901234567890123456789012345678901234567890123456789" 47 ∧
      ("..." : String).length = 3) :=
  ⟨by decide,
   (C8_display_path "012345678901234567890123456789012345678901234567890123456789").2.2
     (by decide)⟩
